import Mathlib

/-!
Verification of the location-based attendance system
(`attendance_server.py`, `esp32_ble_scanner.py`).

The Python sources are shallowly embedded as executable Lean functions:
* the BLE scanner's beacon filter, timestamp fallback and scan loop body;
* the Flask handler `record_attendance` with its validation/exception
  behaviour, the database adapter `insert_attendance_record` /
  `get_recent_attendance`, and the `/api/attendance/recent` handler.

Python-specific behaviour that the handlers rely on is modelled explicitly:
`str.strip`, `int(...)` coercion (`ValueError` on a non-numeric string,
`TypeError`/`AttributeError` on other values, both of which only the generic
`except` clauses observe), the falsiness of `None` and of the empty JSON
object, and `datetime.strptime`/`strftime` with the fixed format
`%Y-%m-%d %H:%M:%S` (including CPython's acceptance of 1-2 digit
month/day/hour/minute/second fields and the calendar check performed by the
`datetime` constructor).
-/

namespace AttendanceSystem

/-! ## Characters and decimal digits -/

/-- Is `c` an ASCII decimal digit? -/
def isDig (c : Char) : Bool :=
  decide (48 ≤ c.toNat) && decide (c.toNat ≤ 57)

/-- Numeric value of an ASCII digit character. -/
def digitVal (c : Char) : Nat := c.toNat - 48

/-- The ASCII digit character for `d < 10` (any larger input maps to `'9'`). -/
def digitChar (d : Nat) : Char :=
  if d = 0 then '0' else if d = 1 then '1' else if d = 2 then '2'
  else if d = 3 then '3' else if d = 4 then '4' else if d = 5 then '5'
  else if d = 6 then '6' else if d = 7 then '7' else if d = 8 then '8' else '9'

/-- Decimal digits of `n`, least significant first, with structural fuel so
    that the definition reduces by computation. -/
def natDigitsRevAux : Nat → Nat → List Char
  | 0, _ => []
  | fuel + 1, n =>
    if n < 10 then [digitChar n]
    else digitChar (n % 10) :: natDigitsRevAux fuel (n / 10)

/-- Decimal digits of `n`, least significant first. -/
def natDigitsRev (n : Nat) : List Char := natDigitsRevAux (n + 1) n

/-- Decimal digits of `n`, most significant first. -/
def natDigits (n : Nat) : List Char := (natDigitsRev n).reverse

/-- Value of a least-significant-first digit list. -/
def valRev : List Char → Nat
  | [] => 0
  | c :: cs => digitVal c + 10 * valRev cs

/-- Value of a most-significant-first digit list. -/
def digitsToNat (cs : List Char) : Nat := valRev cs.reverse

/-- Zero-pad the decimal rendering of `n` to at least `w` characters,
    as Python's `"{:0wd}".format(n)`. -/
def padZeros (w n : Nat) : List Char :=
  List.replicate (w - (natDigits n).length) '0' ++ natDigits n

/-- Python `str.strip()` whitespace predicate (ASCII part). -/
def isWS (c : Char) : Bool :=
  c = ' ' || c = '\t' || c = '\n' || c = '\r'

/-- Drop leading whitespace. -/
def dropWS : List Char → List Char
  | [] => []
  | c :: cs => if isWS c then dropWS cs else c :: cs

/-- Python `str.strip()` on a character list. -/
def stripChars (cs : List Char) : List Char :=
  (dropWS (dropWS cs).reverse).reverse

/-- Python `str.strip()`. -/
def pyStrip (s : String) : String := String.mk (stripChars s.toList)

/-! ## Timestamps: `strptime`/`strftime` with format `%Y-%m-%d %H:%M:%S` -/

/-- A civil datetime as produced by `datetime.strptime`. -/
structure DateTime where
  year : Nat
  month : Nat
  day : Nat
  hour : Nat
  minute : Nat
  second : Nat
deriving DecidableEq, Repr

/-- Gregorian leap year. -/
def isLeap (y : Nat) : Bool :=
  (y % 4 = 0 && y % 100 ≠ 0) || y % 400 = 0

/-- Number of days in month `m` of year `y`. -/
def daysInMonth (y m : Nat) : Nat :=
  if m = 2 then (if isLeap y then 29 else 28)
  else if m = 4 ∨ m = 6 ∨ m = 9 ∨ m = 11 then 30 else 31

/-- The datetimes representable by Python's `datetime` and renderable in the
    fixed 4-digit-year format. -/
def DateTime.Valid (t : DateTime) : Prop :=
  1 ≤ t.year ∧ t.year ≤ 9999 ∧ 1 ≤ t.month ∧ t.month ≤ 12 ∧
  1 ≤ t.day ∧ t.day ≤ daysInMonth t.year t.month ∧
  t.hour ≤ 23 ∧ t.minute ≤ 59 ∧ t.second ≤ 59

instance (t : DateTime) : Decidable t.Valid := by
  unfold DateTime.Valid; infer_instance

/-- Maximal run of leading digits, with the rest. -/
def spanDig : List Char → List Char × List Char
  | [] => ([], [])
  | c :: cs =>
    if isDig c then
      let p := spanDig cs
      (c :: p.1, p.2)
    else ([], c :: cs)

/-- Consume one expected literal character. -/
def expectChar (c : Char) : List Char → Option (List Char)
  | [] => none
  | d :: rest => if d = c then some rest else none

/-- `true` when a field may stop here: end of input or a non-digit next. -/
def noDigHead : List Char → Bool
  | [] => true
  | c :: _ => !isDig c

/-- One 1-or-2-digit field of `strptime`, constrained to `[lo, hi]`.
    This matches the regexes CPython uses for `%m %d %H %M %S`: a run of
    one or two digits whose value lies in the directive's range. -/
def parseField (lo hi : Nat) (cs : List Char) : Option (Nat × List Char) :=
  let p := spanDig cs
  if 1 ≤ p.1.length ∧ p.1.length ≤ 2 ∧ lo ≤ digitsToNat p.1 ∧ digitsToNat p.1 ≤ hi
  then some (digitsToNat p.1, p.2) else none

/-- The `%Y` field: exactly four digits; the `datetime` constructor further
    requires `year ≥ 1`. -/
def parseYear (cs : List Char) : Option (Nat × List Char) :=
  let p := spanDig cs
  if p.1.length = 4 ∧ 1 ≤ digitsToNat p.1
  then some (digitsToNat p.1, p.2) else none

/-- `datetime.strptime(s, '%Y-%m-%d %H:%M:%S')` on a character list: the full
    input must be consumed, and the day must exist in the parsed month
    (otherwise the `datetime` constructor raises `ValueError`). -/
def parseTimestampChars (cs : List Char) : Option DateTime :=
  match parseYear cs with
  | none => none
  | some (y, cs1) =>
    match expectChar '-' cs1 with
    | none => none
    | some cs2 =>
      match parseField 1 12 cs2 with
      | none => none
      | some (mo, cs3) =>
        match expectChar '-' cs3 with
        | none => none
        | some cs4 =>
          match parseField 1 31 cs4 with
          | none => none
          | some (d, cs5) =>
            match expectChar ' ' cs5 with
            | none => none
            | some cs6 =>
              match parseField 0 23 cs6 with
              | none => none
              | some (h, cs7) =>
                match expectChar ':' cs7 with
                | none => none
                | some cs8 =>
                  match parseField 0 59 cs8 with
                  | none => none
                  | some (mi, cs9) =>
                    match expectChar ':' cs9 with
                    | none => none
                    | some cs10 =>
                      match parseField 0 59 cs10 with
                      | none => none
                      | some (sec, cs11) =>
                        if cs11 = [] ∧ d ≤ daysInMonth y mo
                        then some ⟨y, mo, d, h, mi, sec⟩ else none

/-- `datetime.strptime(s, '%Y-%m-%d %H:%M:%S')`, `None` for `ValueError`. -/
def parseTimestamp (s : String) : Option DateTime :=
  parseTimestampChars s.toList

/-- `dt.strftime('%Y-%m-%d %H:%M:%S')` as a character list. -/
def renderTimestampChars (t : DateTime) : List Char :=
  padZeros 4 t.year ++
    ('-' :: (padZeros 2 t.month ++
      ('-' :: (padZeros 2 t.day ++
        (' ' :: (padZeros 2 t.hour ++
          (':' :: (padZeros 2 t.minute ++
            (':' :: padZeros 2 t.second)))))))))

/-- `dt.strftime('%Y-%m-%d %H:%M:%S')`. -/
def renderTimestamp (t : DateTime) : String :=
  String.mk (renderTimestampChars t)

/-! ## ESP32 BLE scanner (`esp32_ble_scanner.py`) -/

namespace Scanner

/-- Lower-case hex digit, as produced by Python's `"{:02x}".format`. -/
def hexDigitChar (n : Nat) : Char :=
  if n < 10 then digitChar n
  else if n = 10 then 'a' else if n = 11 then 'b' else if n = 12 then 'c'
  else if n = 13 then 'd' else if n = 14 then 'e' else 'f'

/-- `"{:02x}".format(b)` for a byte `b`: two lower-case hex characters. -/
def byteHex (b : Fin 256) : List Char :=
  [hexDigitChar (b.val / 16), hexDigitChar (b.val % 16)]

/-- `"".join(["{:02x}".format(b) for b in adv_data])`. -/
def advHexChars (adv_data : List (Fin 256)) : List Char :=
  (adv_data.map byteHex).flatten

/-- `self.target_uuid.replace("-", "").lower()` as a character list. -/
def normTargetChars (target_uuid : String) : List Char :=
  (target_uuid.toList.filter (fun c => c ≠ '-')).map Char.toLower

/-- Python `str.startswith` on character lists. -/
def startsWithList : List Char → List Char → Bool
  | [], _ => true
  | _ :: _, [] => false
  | a :: as, b :: bs => a = b && startsWithList as bs

/-- Python's substring test `needle in haystack` on character lists. -/
def containsList (needle : List Char) : List Char → Bool
  | [] => startsWithList needle []
  | c :: cs => startsWithList needle (c :: cs) || containsList needle cs

/-- `BLEAttendanceScanner.is_target_beacon`: the identifier with `-` removed
    and lower-cased must occur as a substring of the lower-cased hex rendering
    of the advertisement bytes. -/
def is_target_beacon (target_uuid : String) (adv_data : List (Fin 256)) : Bool :=
  containsList (normTargetChars target_uuid)
    ((advHexChars adv_data).map Char.toLower)

/-- The tuple returned by MicroPython's `RTC().datetime()`:
    `(year, month, day, weekday, hours, minutes, seconds, subseconds)`. -/
structure RtcDateTime where
  year : Nat
  month : Nat
  day : Nat
  weekday : Nat
  hour : Nat
  minute : Nat
  second : Nat
  subsecond : Nat
deriving DecidableEq

/-- `BLEAttendanceScanner.get_current_timestamp`: format the RTC reading as
    `YYYY-MM-DD HH:MM:SS`; if reading the clock raises (`none`), return the
    epoch sentinel instead. -/
def get_current_timestamp (rtc : Option RtcDateTime) : String :=
  match rtc with
  | none => "1970-01-01 00:00:00"
  | some t =>
    String.mk (padZeros 4 t.year ++
      ('-' :: (padZeros 2 t.month ++
        ('-' :: (padZeros 2 t.day ++
          (' ' :: (padZeros 2 t.hour ++
            (':' :: (padZeros 2 t.minute ++
              (':' :: padZeros 2 t.second))))))))))

/-- One raw scan result: `(addr_type, addr, adv_type, rssi, adv_data)`,
    keeping the fields the loop body reads. -/
structure ScanResult where
  addr : List (Fin 256)
  rssi : Int
  adv_data : List (Fin 256)

/-- `":".join(["{:02x}".format(b) for b in addr])`. -/
def macString (addr : List (Fin 256)) : String :=
  String.intercalate ":" (addr.map (fun b => String.mk (byteHex b)))

/-- One detected beacon, as appended to `detected_beacons`. -/
structure Beacon where
  mac_address : String
  rssi : Int
  timestamp : String
deriving DecidableEq

/-- The collection loop of `BLEAttendanceScanner.scan_for_beacons`: run the
    beacon filter over each observation and build a sighting for each match,
    stamping it with `get_current_timestamp`. -/
def scan_for_beacons (target_uuid : String) (rtc : Option RtcDateTime) :
    List ScanResult → List Beacon
  | [] => []
  | r :: rs =>
    if is_target_beacon target_uuid r.adv_data then
      ⟨macString r.addr, r.rssi, get_current_timestamp rtc⟩ ::
        scan_for_beacons target_uuid rtc rs
    else scan_for_beacons target_uuid rtc rs

end Scanner

/-! ## Flask server (`attendance_server.py`) -/

namespace Server

/-- A JSON value as seen by the handler (numbers modelled as integers). -/
inductive JVal where
  | str (s : String)
  | num (n : Int)
  | bool (b : Bool)
  | null
deriving DecidableEq

/-- Is this JSON value a Python `str`? -/
def JVal.isStr : JVal → Bool
  | .str _ => true
  | _ => false

/-- The exceptions the handler's `try` block can raise during extraction.
    Only `ValueError` has a dedicated `except` clause (400 with the
    exception's message); `TypeError`, `AttributeError` and `KeyError` all
    fall through to the generic `except Exception` clause (500). -/
inductive PyExc where
  | valueError (msg : String)
  | otherError
deriving DecidableEq

/-- Python `int(s)` on a string: optional surrounding whitespace, optional
    sign, then a non-empty digit run (digit-group underscores are not
    modelled). `none` models `ValueError`. -/
def parsePyInt (s : String) : Option Int :=
  let core : List Char → Option Nat := fun ds =>
    if ds ≠ [] ∧ ds.all isDig then some (digitsToNat ds) else none
  match stripChars s.toList with
  | '+' :: ds => (core ds).map (fun n => (n : Int))
  | '-' :: ds => (core ds).map (fun n => -(n : Int))
  | ds => (core ds).map (fun n => (n : Int))

/-- `int(data['classroom_id'])`: strings are parsed (raising `ValueError`
    with CPython's message when non-numeric), numbers pass through, booleans
    coerce to 0/1, `None` raises `TypeError`. A missing key would raise
    `KeyError` (unreachable after the missing-fields check). -/
def pyIntOf (v : Option JVal) : Except PyExc Int :=
  match v with
  | some (JVal.str s) =>
    match parsePyInt s with
    | some n => Except.ok n
    | none =>
      Except.error (PyExc.valueError
        ("invalid literal for int() with base 10: '" ++ s ++ "'"))
  | some (JVal.num n) => Except.ok n
  | some (JVal.bool b) => Except.ok (if b then 1 else 0)
  | some JVal.null => Except.error PyExc.otherError
  | none => Except.error PyExc.otherError

/-- `data[field].strip()`: only a `str` has `.strip`; any other value raises
    `AttributeError`, caught only by the generic handler. -/
def extractStripped (v : Option JVal) : Except PyExc String :=
  match v with
  | some (JVal.str s) => Except.ok (pyStrip s)
  | some _ => Except.error PyExc.otherError
  | none => Except.error PyExc.otherError

/-- Dictionary lookup in the decoded JSON object (duplicate keys: last one
    wins, as in Python's `json` module). -/
def jlookup (kvs : List (String × JVal)) (k : String) : Option JVal :=
  kvs.foldl (fun acc p => if p.1 = k then some p.2 else acc) none

/-- Python truthiness test `if not data:` on the decoded body: `None` and the
    empty object are both falsy. -/
def notData (data : Option (List (String × JVal))) : Bool :=
  match data with
  | none => true
  | some kvs => kvs.isEmpty

/-- `required_fields` in `record_attendance`. -/
def requiredFields : List String :=
  ["student_mac_address", "classroom_id", "timestamp"]

/-- One persisted row of the `attendance` table. -/
structure AttendanceRecord where
  id : Nat
  student_mac_address : String
  classroom_id : Int
  entry_timestamp : DateTime
deriving DecidableEq

/-- Failure modes of the MySQL store, from the adapter's point of view. -/
inductive StoreFail where
  | healthy
  | connectFail
  | queryError
deriving DecidableEq

/-- State of the `AttendanceDatabase` handler plus the store it talks to.
    `connectAttempts` counts calls to `connect()` (i.e. store accesses made
    before any statement executes). -/
structure DBState where
  fail : StoreFail
  connected : Bool
  connectAttempts : Nat
  records : List AttendanceRecord
  nextId : Nat
deriving DecidableEq

/-- `AttendanceDatabase.connect`: succeeds unless the store is unreachable. -/
def tryConnect (db : DBState) : Bool × DBState :=
  match db.fail with
  | StoreFail.connectFail =>
    (false, { db with connected := false, connectAttempts := db.connectAttempts + 1 })
  | _ =>
    (true, { db with connected := true, connectAttempts := db.connectAttempts + 1 })

/-- The reconnect-on-demand prologue
    `if not self.connection or not self.connection.is_connected(): ...`. -/
def ensureConnection (db : DBState) : Bool × DBState :=
  if db.connected then (true, db) else tryConnect db

/-- `AttendanceDatabase.insert_attendance_record`: ensure a connection, then
    `strptime` the timestamp (returning `False` on `ValueError`), then execute
    the insert; a statement-level error rolls back and returns `False`. -/
def insert_attendance_record (db : DBState) (student_mac : String)
    (classroom_id : Int) (timestamp : String) : Bool × DBState :=
  match ensureConnection db with
  | (false, db1) => (false, db1)
  | (true, db1) =>
    match parseTimestamp timestamp with
    | none => (false, db1)
    | some ts =>
      match db1.fail with
      | StoreFail.healthy =>
        (true, { db1 with
          records := db1.records ++
            [⟨db1.nextId, student_mac, classroom_id, ts⟩],
          nextId := db1.nextId + 1 })
      | _ => (false, db1)

/-- A record as serialized by the recent-records query (timestamp rendered
    back to the fixed string format). -/
structure RenderedRecord where
  id : Nat
  student_mac_address : String
  classroom_id : Int
  entry_timestamp : String
deriving DecidableEq

/-- Sort key: chronological order of a datetime. -/
def dtKey (t : DateTime) : Nat :=
  ((((t.year * 13 + t.month) * 32 + t.day) * 24 + t.hour) * 60 + t.minute) * 60
    + t.second

/-- Insert into a list kept in descending `entry_timestamp` order. -/
def insertDesc (r : AttendanceRecord) : List AttendanceRecord → List AttendanceRecord
  | [] => [r]
  | x :: xs =>
    if dtKey x.entry_timestamp ≤ dtKey r.entry_timestamp then r :: x :: xs
    else x :: insertDesc r xs

/-- `ORDER BY entry_timestamp DESC`. -/
def sortByTsDesc (rs : List AttendanceRecord) : List AttendanceRecord :=
  rs.foldr insertDesc []

/-- Serialization of one fetched row, with
    `record['entry_timestamp'].strftime('%Y-%m-%d %H:%M:%S')`. -/
def renderRecord (r : AttendanceRecord) : RenderedRecord :=
  ⟨r.id, r.student_mac_address, r.classroom_id, renderTimestamp r.entry_timestamp⟩

/-- `AttendanceDatabase.get_recent_attendance`: ensure a connection (else
    `[]`), run the bounded query (a statement error, including a negative SQL
    `LIMIT`, is caught and yields `[]`), and render the rows. -/
def get_recent_attendance_db (db : DBState) (limit : Int) :
    List RenderedRecord × DBState :=
  match ensureConnection db with
  | (false, db1) => ([], db1)
  | (true, db1) =>
    match db1.fail with
    | StoreFail.healthy =>
      if limit < 0 then ([], db1)
      else (((sortByTsDesc db1.records).take limit.toNat).map renderRecord, db1)
    | _ => ([], db1)

/-- An HTTP response of `POST /api/attendance` (`echo` is the `data` object
    returned on success). -/
structure ApiResponse where
  status : Nat
  success : Bool
  message : String
  echo : Option (String × Int × String)
deriving DecidableEq

/-- The body of `record_attendance` after the presence checks: field
    extraction (lines 167-170 of the source, whose exceptions are routed to
    the `except ValueError` (400) and `except Exception` (500) clauses), the
    two value checks, and the database insert. -/
def validateAndInsert (db : DBState) (macV cidV tsV : Option JVal) :
    ApiResponse × DBState :=
  match extractStripped macV with
  | Except.error (PyExc.valueError m) =>
    (⟨400, false, "Invalid data format: " ++ m, none⟩, db)
  | Except.error PyExc.otherError =>
    (⟨500, false, "Internal server error", none⟩, db)
  | Except.ok student_mac =>
    match pyIntOf cidV with
    | Except.error (PyExc.valueError m) =>
      (⟨400, false, "Invalid data format: " ++ m, none⟩, db)
    | Except.error PyExc.otherError =>
      (⟨500, false, "Internal server error", none⟩, db)
    | Except.ok classroom_id =>
      match extractStripped tsV with
      | Except.error (PyExc.valueError m) =>
        (⟨400, false, "Invalid data format: " ++ m, none⟩, db)
      | Except.error PyExc.otherError =>
        (⟨500, false, "Internal server error", none⟩, db)
      | Except.ok timestamp =>
        if student_mac = "" then
          (⟨400, false, "Student MAC address cannot be empty", none⟩, db)
        else if classroom_id ≤ 0 then
          (⟨400, false, "Classroom ID must be a positive integer", none⟩, db)
        else
          let r := insert_attendance_record db student_mac classroom_id timestamp
          if r.1 then
            (⟨200, true, "Attendance recorded successfully",
              some (student_mac, classroom_id, timestamp)⟩, r.2)
          else
            (⟨500, false, "Failed to record attendance in database", none⟩, r.2)

/-- The `record_attendance` Flask handler. The body is the decoded JSON
    (`none` when absent/undecodable); validation follows the source order:
    the falsiness test on the body, the missing-fields check, then
    `validateAndInsert` on the three looked-up fields. -/
def record_attendance (db : DBState) (data : Option (List (String × JVal))) :
    ApiResponse × DBState :=
  if notData data then
    (⟨400, false, "No JSON data provided", none⟩, db)
  else
    let kvs := data.getD []
    let missing := requiredFields.filter (fun f => (jlookup kvs f).isNone)
    if !missing.isEmpty then
      (⟨400, false,
        "Missing required fields: " ++ String.intercalate ", " missing, none⟩, db)
    else
      validateAndInsert db (jlookup kvs "student_mac_address")
        (jlookup kvs "classroom_id") (jlookup kvs "timestamp")

/-- An HTTP response of `GET /api/attendance/recent`. -/
structure RecentResponse where
  status : Nat
  success : Bool
  message : String
  data : List RenderedRecord
deriving DecidableEq

/-- The `get_recent_attendance` Flask handler: default limit 10, silent cap
    at 100, then the store read (which swallows store errors into `[]`). -/
def get_recent_attendance (db : DBState) (limitArg : Option Int) :
    RecentResponse × DBState :=
  let limit0 := limitArg.getD 10
  let limit := if limit0 > 100 then 100 else limit0
  let r := get_recent_attendance_db db limit
  (⟨200, true,
    "Retrieved " ++ toString r.1.length ++ " recent attendance records",
    r.1⟩, r.2)

/-! Concrete fixtures used by witnesses and counterexamples. -/

/-- A fresh, healthy, not-yet-connected server state. -/
def dbInit : DBState := ⟨StoreFail.healthy, false, 0, [], 1⟩

/-- A server state whose store is unreachable. -/
def dbDown : DBState := ⟨StoreFail.connectFail, false, 0, [], 1⟩

/-- A server state whose store connection works but whose queries fail. -/
def dbQueryErr : DBState := ⟨StoreFail.queryError, false, 0, [], 1⟩

/-- A healthy server state with an empty attendance table. -/
def emptyStore : DBState := ⟨StoreFail.healthy, true, 0, [], 1⟩

/-- Payload with a well-formed mac and classroom but an unparseable timestamp. -/
def pBadTs : Option (List (String × JVal)) :=
  some [("student_mac_address", JVal.str "AA:BB:CC:DD:EE:FF"),
        ("classroom_id", JVal.num 101),
        ("timestamp", JVal.str "not-a-date")]

/-- Payload whose mac is empty after trimming and whose classroom does not
    coerce to an integer. -/
def pC2 : Option (List (String × JVal)) :=
  some [("student_mac_address", JVal.str "   "),
        ("classroom_id", JVal.str "abc"),
        ("timestamp", JVal.str "2024-01-15 09:30:00")]

/-- Payload with a string mac, a non-coercible string classroom and a
    non-string timestamp. -/
def pC10 : Option (List (String × JVal)) :=
  some [("student_mac_address", JVal.str "AA:BB:CC:DD:EE:FF"),
        ("classroom_id", JVal.str "abc"),
        ("timestamp", JVal.num 5)]

end Server

/-! ## Digit-rendering lemmas -/

theorem digitVal_digitChar {d : Nat} (h : d < 10) : digitVal (digitChar d) = d := by
  interval_cases d <;> rfl

theorem isDig_digitChar (d : Nat) : isDig (digitChar d) = true := by
  unfold digitChar
  repeat' split
  all_goals decide

theorem valRev_natDigitsRevAux :
    ∀ (fuel n : Nat), n < fuel → valRev (natDigitsRevAux fuel n) = n := by
  intro fuel
  induction fuel with
  | zero => omega
  | succ fuel ih =>
    intro n hn
    unfold natDigitsRevAux
    split
    · rename_i h
      simp [valRev, digitVal_digitChar h]
    · rename_i h
      have hlt : n / 10 < n := Nat.div_lt_self (by omega) (by omega)
      simp [valRev, ih (n / 10) (by omega),
        digitVal_digitChar (show n % 10 < 10 by omega)]
      omega

theorem valRev_natDigitsRev (n : Nat) : valRev (natDigitsRev n) = n :=
  valRev_natDigitsRevAux (n + 1) n (by omega)

theorem digitsToNat_natDigits (n : Nat) : digitsToNat (natDigits n) = n := by
  simp [digitsToNat, natDigits, valRev_natDigitsRev]

theorem natDigitsRevAux_allDig :
    ∀ (fuel n : Nat), ∀ c ∈ natDigitsRevAux fuel n, isDig c = true := by
  intro fuel
  induction fuel with
  | zero => simp [natDigitsRevAux]
  | succ fuel ih =>
    intro n
    unfold natDigitsRevAux
    split
    · simp [isDig_digitChar]
    · simp only [List.mem_cons]
      rintro c (rfl | hc)
      · exact isDig_digitChar _
      · exact ih (n / 10) c hc

theorem natDigitsRev_allDig (n : Nat) :
    ∀ c ∈ natDigitsRev n, isDig c = true :=
  natDigitsRevAux_allDig (n + 1) n

theorem natDigitsRevAux_length_le :
    ∀ (w n fuel : Nat), n < 10 ^ (w + 1) → n < fuel →
      (natDigitsRevAux fuel n).length ≤ w + 1 := by
  intro w
  induction w with
  | zero =>
    intro n fuel hn hf
    cases fuel with
    | zero => omega
    | succ fuel =>
      unfold natDigitsRevAux
      rw [if_pos (by simpa using hn)]
      simp
  | succ w ih =>
    intro n fuel hn hf
    cases fuel with
    | zero => omega
    | succ fuel =>
      unfold natDigitsRevAux
      split
      · simp
      · rename_i h
        have hlt : n / 10 < n := Nat.div_lt_self (by omega) (by omega)
        have hdiv : n / 10 < 10 ^ (w + 1) := by
          rw [Nat.div_lt_iff_lt_mul (by omega)]
          calc n < 10 ^ (w + 1 + 1) := hn
          _ = 10 ^ (w + 1) * 10 := by ring
        simpa using ih (n / 10) fuel hdiv (by omega)

theorem natDigitsRev_length_le (w n : Nat) (hn : n < 10 ^ (w + 1)) :
    (natDigitsRev n).length ≤ w + 1 :=
  natDigitsRevAux_length_le w n (n + 1) hn (by omega)

theorem valRev_append_zeros (k : Nat) (cs : List Char) :
    valRev (cs ++ List.replicate k '0') = valRev cs := by
  induction cs with
  | nil =>
    simp only [List.nil_append]
    induction k with
    | zero => rfl
    | succ k ihk => simp [List.replicate_succ, valRev, ihk]; rfl
  | cons c cs ih => simp [valRev, ih]

theorem digitsToNat_padZeros (w n : Nat) : digitsToNat (padZeros w n) = n := by
  unfold digitsToNat padZeros natDigits
  rw [List.reverse_append, List.reverse_reverse, List.reverse_replicate]
  rw [valRev_append_zeros, valRev_natDigitsRev]

theorem padZeros_allDig (w n : Nat) : ∀ c ∈ padZeros w n, isDig c = true := by
  intro c hc
  rcases List.mem_append.mp hc with h | h
  · rw [List.eq_of_mem_replicate h]; decide
  · exact natDigitsRev_allDig n c (List.mem_reverse.mp h)

theorem padZeros_length {w n : Nat} (hw : 0 < w) (hn : n < 10 ^ w) :
    (padZeros w n).length = w := by
  obtain ⟨w', rfl⟩ : ∃ w', w = w' + 1 := ⟨w - 1, by omega⟩
  have hlen : (natDigits n).length ≤ w' + 1 := by
    simpa [natDigits] using natDigitsRev_length_le w' n hn
  simp only [padZeros, List.length_append, List.length_replicate]
  omega

/-! ## `spanDig` lemmas -/

theorem spanDig_all {ds : List Char} (h : ∀ c ∈ ds, isDig c = true) :
    spanDig ds = (ds, []) := by
  induction ds with
  | nil => rfl
  | cons c cs ih =>
    have hc : isDig c = true := h c (by simp)
    simp [spanDig, hc, ih (fun x hx => h x (by simp [hx]))]

theorem spanDig_append {ds : List Char} (c : Char) (rest : List Char)
    (hds : ∀ x ∈ ds, isDig x = true) (hc : isDig c = false) :
    spanDig (ds ++ c :: rest) = (ds, c :: rest) := by
  induction ds with
  | nil => simp [spanDig, hc]
  | cons d ds ih =>
    have hd : isDig d = true := hds d (by simp)
    simp [spanDig, hd, ih (fun x hx => hds x (by simp [hx]))]

theorem spanDig_padZeros (w n : Nat) {rest : List Char}
    (hr : noDigHead rest = true) :
    spanDig (padZeros w n ++ rest) = (padZeros w n, rest) := by
  cases rest with
  | nil => rw [List.append_nil]; exact spanDig_all (padZeros_allDig w n)
  | cons c cs =>
    have hc : isDig c = false := by
      simpa [noDigHead] using hr
    exact spanDig_append c cs (padZeros_allDig w n) hc

/-! ## `strptime` / `strftime` round trip -/

theorem parseField_padZeros {lo hi v : Nat} (rest : List Char)
    (hlo : lo ≤ v) (hhi : v ≤ hi) (hv : v < 100) (hr : noDigHead rest = true) :
    parseField lo hi (padZeros 2 v ++ rest) = some (v, rest) := by
  unfold parseField
  rw [spanDig_padZeros 2 v hr]
  have hlen : (padZeros 2 v).length = 2 := padZeros_length (by omega) (by omega)
  have hval : digitsToNat (padZeros 2 v) = v := digitsToNat_padZeros 2 v
  simp [hlen, hval, hlo, hhi]

theorem parseYear_padZeros {y : Nat} (rest : List Char)
    (h1 : 1 ≤ y) (h2 : y < 10000) (hr : noDigHead rest = true) :
    parseYear (padZeros 4 y ++ rest) = some (y, rest) := by
  unfold parseYear
  rw [spanDig_padZeros 4 y hr]
  have hlen : (padZeros 4 y).length = 4 := padZeros_length (by omega) (by omega)
  have hval : digitsToNat (padZeros 4 y) = y := digitsToNat_padZeros 4 y
  simp [hlen, hval, h1]

theorem expectChar_cons (c : Char) (rest : List Char) :
    expectChar c (c :: rest) = some rest := by
  simp [expectChar]

theorem noDigHead_cons (c : Char) (l : List Char) (hc : isDig c = false) :
    noDigHead (c :: l) = true := by
  simp [noDigHead, hc]

theorem daysInMonth_le_31 (y m : Nat) : daysInMonth y m ≤ 31 := by
  unfold daysInMonth
  repeat' split
  all_goals omega

/-- Parsing the rendering of a representable datetime recovers it exactly. -/
theorem parse_render {t : DateTime} (h : t.Valid) :
    parseTimestampChars (renderTimestampChars t) = some t := by
  obtain ⟨h1, h2, h3, h4, h5, h6, h7, h8, h9⟩ := h
  have hd31 : t.day ≤ 31 := le_trans h6 (daysInMonth_le_31 _ _)
  unfold renderTimestampChars parseTimestampChars
  simp only [parseYear_padZeros _ h1 (by omega) (noDigHead_cons '-' _ (by decide)),
    parseField_padZeros _ h3 h4 (by omega) (noDigHead_cons '-' _ (by decide)),
    parseField_padZeros _ h5 hd31 (by omega) (noDigHead_cons ' ' _ (by decide)),
    parseField_padZeros _ (Nat.zero_le _) h7 (by omega) (noDigHead_cons ':' _ (by decide)),
    parseField_padZeros _ (Nat.zero_le _) h8 (by omega) (noDigHead_cons ':' _ (by decide)),
    expectChar_cons]
  rw [show padZeros 2 t.second = padZeros 2 t.second ++ [] from (List.append_nil _).symm]
  simp only [parseField_padZeros ([] : List Char) (Nat.zero_le _) h9 (by omega) (by decide)]
  simp [h6]

theorem parseTimestamp_renderTimestamp {t : DateTime} (h : t.Valid) :
    parseTimestamp (renderTimestamp t) = some t := by
  unfold parseTimestamp renderTimestamp
  exact parse_render h

/-! ## Handler-level helper lemmas -/

namespace Server

theorem notData_false {kvs : List (String × JVal)} {k : String} {v : JVal}
    (h : jlookup kvs k = some v) : notData (some kvs) = false := by
  cases kvs with
  | nil => simp [jlookup] at h
  | cons p ps => rfl

theorem missing_empty {kvs : List (String × JVal)} {a b c : JVal}
    (h1 : jlookup kvs "student_mac_address" = some a)
    (h2 : jlookup kvs "classroom_id" = some b)
    (h3 : jlookup kvs "timestamp" = some c) :
    requiredFields.filter (fun f => (jlookup kvs f).isNone) = [] := by
  simp [requiredFields, List.filter, h1, h2, h3]

/-- When the body is a JSON object containing all three fields, the handler
    runs `validateAndInsert` on their values. -/
theorem record_attendance_fields (db : DBState) (kvs : List (String × JVal))
    {a b c : JVal}
    (h1 : jlookup kvs "student_mac_address" = some a)
    (h2 : jlookup kvs "classroom_id" = some b)
    (h3 : jlookup kvs "timestamp" = some c) :
    record_attendance db (some kvs) =
      validateAndInsert db (some a) (some b) (some c) := by
  unfold record_attendance
  simp [notData_false h1, missing_empty h1 h2 h3, h1, h2, h3]

/-- When all three fields extract cleanly and pass the two value checks, the
    handler's outcome is decided by the database insert. -/
theorem validateAndInsert_ok (db : DBState) (mac ts : String) (b : JVal) (c : Int)
    (hmne : pyStrip mac ≠ "") (hcid : pyIntOf (some b) = Except.ok c)
    (hcpos : 0 < c) :
    validateAndInsert db (some (JVal.str mac)) (some b) (some (JVal.str ts)) =
      (let r := insert_attendance_record db (pyStrip mac) c (pyStrip ts)
       if r.1 then
         (⟨200, true, "Attendance recorded successfully",
           some (pyStrip mac, c, pyStrip ts)⟩, r.2)
       else
         (⟨500, false, "Failed to record attendance in database", none⟩, r.2)) := by
  unfold validateAndInsert
  simp [extractStripped, hcid, hmne, show ¬(c ≤ 0) from by omega]

theorem extractStripped_nonstr {v : JVal} (h : v.isStr = false) :
    extractStripped (some v) = Except.error PyExc.otherError := by
  cases v <;> simp_all [JVal.isStr, extractStripped]

/-- A successful insert on a healthy store, componentwise. -/
theorem insert_healthy (db : DBState) (mac : String) (c : Int) (ts : String)
    {dt : DateTime} (hf : db.fail = StoreFail.healthy)
    (hp : parseTimestamp ts = some dt) :
    (insert_attendance_record db mac c ts).1 = true ∧
    (insert_attendance_record db mac c ts).2.records =
      db.records ++ [⟨db.nextId, mac, c, dt⟩] ∧
    (insert_attendance_record db mac c ts).2.fail = StoreFail.healthy ∧
    (insert_attendance_record db mac c ts).2.connected = true := by
  unfold insert_attendance_record ensureConnection tryConnect
  by_cases hc : db.connected
  · simp [hc, hp, hf]
  · rw [hf]
    simp [hc, hp]

/-- An insert whose timestamp does not parse fails and leaves the record set
    unchanged (the timestamp check happens after the connection prologue). -/
theorem insert_parse_fail (db : DBState) (mac : String) (c : Int) (ts : String)
    (hp : parseTimestamp ts = none) :
    (insert_attendance_record db mac c ts).1 = false ∧
    (insert_attendance_record db mac c ts).2.records = db.records := by
  unfold insert_attendance_record ensureConnection tryConnect
  by_cases hc : db.connected
  · simp [hc, hp]
  · cases hf : db.fail <;> simp [hc, hp]

/-- A failing store makes the read adapter return the empty list. -/
theorem get_recent_db_failing (db : DBState) (limit : Int)
    (h : db.fail ≠ StoreFail.healthy) :
    (get_recent_attendance_db db limit).1 = [] := by
  unfold get_recent_attendance_db ensureConnection tryConnect
  by_cases hc : db.connected
  · cases hf : db.fail <;> simp_all
  · cases hf : db.fail <;> simp_all

/-- The read adapter on the healthy empty store also returns the empty list. -/
theorem get_recent_db_empty (limit : Int) :
    (get_recent_attendance_db emptyStore limit).1 = [] := by
  unfold get_recent_attendance_db ensureConnection emptyStore sortByTsDesc
  by_cases hl : limit < 0 <;> simp [hl]

theorem ensureConnection_of_connected {db : DBState} (hc : db.connected = true) :
    ensureConnection db = (true, db) := by
  unfold ensureConnection
  simp [hc]

/-- Reading back limit 1 over a healthy connected store holding one record. -/
theorem get_recent_handler_single {db : DBState} {r : AttendanceRecord}
    (hc : db.connected = true) (hf : db.fail = StoreFail.healthy)
    (hr : db.records = [r]) :
    (get_recent_attendance db (some 1)).1.data = [renderRecord r] := by
  show (get_recent_attendance_db db 1).1 = [renderRecord r]
  unfold get_recent_attendance_db
  rw [ensureConnection_of_connected hc]
  dsimp only
  rw [hf, hr]
  simp [sortByTsDesc, insertDesc]

end Server

/-! ## Substring characterization for the beacon filter -/

namespace Scanner

theorem startsWithList_iff (n : List Char) : ∀ h : List Char,
    (startsWithList n h = true ↔ ∃ rest, h = n ++ rest) := by
  induction n with
  | nil =>
    intro h
    simp [startsWithList]
  | cons a as ih =>
    intro h
    cases h with
    | nil =>
      simp [startsWithList]
    | cons b bs =>
      simp only [startsWithList, Bool.and_eq_true, decide_eq_true_eq, ih,
        List.cons_append, List.cons.injEq]
      constructor
      · rintro ⟨rfl, rest, rfl⟩
        exact ⟨rest, rfl, rfl⟩
      · rintro ⟨rest, rfl, rfl⟩
        exact ⟨rfl, rest, rfl⟩

theorem containsList_iff (n : List Char) : ∀ h : List Char,
    (containsList n h = true ↔ ∃ pre post, h = pre ++ n ++ post) := by
  intro h
  induction h with
  | nil =>
    simp only [containsList, startsWithList_iff]
    constructor
    · rintro ⟨rest, hr⟩
      exact ⟨[], rest, by simpa using hr⟩
    · rintro ⟨pre, post, hp⟩
      rcases List.append_eq_nil.mp hp.symm with ⟨h12, h3⟩
      rcases List.append_eq_nil.mp h12 with ⟨h1, h2⟩
      exact ⟨[], by simp [h2]⟩
  | cons c cs ih =>
    simp only [containsList, Bool.or_eq_true, startsWithList_iff, ih]
    constructor
    · rintro (⟨rest, hr⟩ | ⟨pre, post, rfl⟩)
      · exact ⟨[], rest, by simpa using hr⟩
      · exact ⟨c :: pre, post, rfl⟩
    · rintro ⟨pre, post, hp⟩
      cases pre with
      | nil =>
        left
        exact ⟨post, by simpa using hp⟩
      | cons p ps =>
        right
        rcases (List.cons_eq_cons.mp (by simpa using hp)) with ⟨rfl, h2⟩
        exact ⟨ps, post, by simp [h2, List.append_assoc]⟩

end Scanner

/-! ## Claims about the beacon filter and the scanner loop -/

/-- Counterexample to C3: an identifier made only of separator characters
    normalizes to the empty string, which Python's `in` finds in every
    string, so the empty advertisement payload yields `true`, not `false`. -/
theorem C3_counterexample :
    Scanner.is_target_beacon "-" ([] : List (Fin 256)) = true := by decide

/-- C3 (amended): the filter returns true exactly when the identifier with
    `-` separators removed and lower-cased occurs contiguously in the
    lower-case hex rendering of the advertisement bytes (the function is
    total, so it cannot raise); an empty payload yields false whenever the
    normalized identifier is non-empty. -/
theorem C3_beacon_filter (target_uuid : String) (adv_data : List (Fin 256)) :
    (Scanner.is_target_beacon target_uuid adv_data = true ↔
      ∃ pre post,
        (Scanner.advHexChars adv_data).map Char.toLower =
          pre ++ Scanner.normTargetChars target_uuid ++ post) ∧
    (Scanner.normTargetChars target_uuid ≠ [] →
      Scanner.is_target_beacon target_uuid ([] : List (Fin 256)) = false) := by
  constructor
  · exact Scanner.containsList_iff _ _
  · intro hne
    cases hb : Scanner.is_target_beacon target_uuid ([] : List (Fin 256)) with
    | false => rfl
    | true =>
      exfalso
      obtain ⟨pre, post, hp⟩ := (Scanner.containsList_iff _ _).mp hb
      have : Scanner.normTargetChars target_uuid = [] := by
        have h0 : (Scanner.advHexChars ([] : List (Fin 256))).map Char.toLower = [] := rfl
        rw [h0] at hp
        exact (List.append_eq_nil.mp (List.append_eq_nil.mp hp.symm).1).2
      exact hne this

/-- Witness for C3 at concrete inputs: the system's service UUID is found in
    a payload carrying its byte pattern, and the empty payload is rejected. -/
theorem C3_beacon_filter_witness :
    Scanner.is_target_beacon "12345678-1234-5678-1234-56789abcdef0"
      [0x12, 0x34, 0x56, 0x78, 0x12, 0x34, 0x56, 0x78,
       0x12, 0x34, 0x56, 0x78, 0x9a, 0xbc, 0xde, 0xf0] = true ∧
    Scanner.is_target_beacon "12345678-1234-5678-1234-56789abcdef0"
      ([] : List (Fin 256)) = false := by
  refine ⟨by decide, ?_⟩
  exact (C3_beacon_filter "12345678-1234-5678-1234-56789abcdef0" []).2 (by decide)

/-- C8: when the real-time clock read fails, every matching observation is
    still turned into a sighting, stamped with the epoch sentinel
    `1970-01-01 00:00:00`; no iteration is skipped or aborted. -/
theorem C8_rtc_failure_sentinel (target_uuid : String)
    (results : List Scanner.ScanResult) :
    Scanner.scan_for_beacons target_uuid none results =
      (results.filter
        (fun r => Scanner.is_target_beacon target_uuid r.adv_data)).map
        (fun r => ⟨Scanner.macString r.addr, r.rssi, "1970-01-01 00:00:00"⟩) := by
  induction results with
  | nil => rfl
  | cons r rs ih =>
    by_cases hm : Scanner.is_target_beacon target_uuid r.adv_data
    · simp [Scanner.scan_for_beacons, hm, ih, Scanner.get_current_timestamp,
        List.filter_cons]
    · simp [Scanner.scan_for_beacons, hm, ih, List.filter_cons]

/-! ## Claims about `POST /api/attendance` -/

/-- Counterexample to C1: for a payload whose timestamp does not parse, the
    handler answers 500 (not a 4xx client error), and the store is accessed
    (a connection attempt is made) before the timestamp check runs. -/
theorem C1_counterexample :
    (Server.record_attendance Server.dbInit Server.pBadTs).1.status = 500 ∧
    (Server.record_attendance Server.dbInit Server.pBadTs).2.connectAttempts = 1 := by
  decide

/-- C1 (amended): for every payload with a non-empty trimmed mac, a positive
    integer classroom and an unparseable timestamp, the handler does not
    validate the timestamp at the boundary; the `strptime` failure inside the
    store adapter makes the insert report failure, so the response is the
    500 "Failed to record attendance in database" error, and the attendance
    record set is unchanged. -/
theorem C1_invalid_timestamp (db : Server.DBState)
    (kvs : List (String × Server.JVal)) (mac ts : String) (b : Server.JVal)
    (c : Int)
    (hmac : Server.jlookup kvs "student_mac_address" = some (Server.JVal.str mac))
    (hmne : pyStrip mac ≠ "")
    (hb : Server.jlookup kvs "classroom_id" = some b)
    (hcid : Server.pyIntOf (some b) = Except.ok c) (hcpos : 0 < c)
    (hts : Server.jlookup kvs "timestamp" = some (Server.JVal.str ts))
    (hbad : parseTimestamp (pyStrip ts) = none) :
    (Server.record_attendance db (some kvs)).1 =
      ⟨500, false, "Failed to record attendance in database", none⟩ ∧
    (Server.record_attendance db (some kvs)).2.records = db.records := by
  rw [Server.record_attendance_fields db kvs hmac hb hts,
      Server.validateAndInsert_ok db mac ts b c hmne hcid hcpos]
  have hi := Server.insert_parse_fail db (pyStrip mac) c (pyStrip ts) hbad
  constructor
  · simp [hi.1]
  · simp [hi.1, hi.2]

/-- Witness for C1 at a concrete payload. -/
theorem C1_invalid_timestamp_witness :
    (Server.record_attendance Server.dbInit Server.pBadTs).1 =
      ⟨500, false, "Failed to record attendance in database", none⟩ := by
  have h := C1_invalid_timestamp Server.dbInit
    [("student_mac_address", Server.JVal.str "AA:BB:CC:DD:EE:FF"),
     ("classroom_id", Server.JVal.num 101),
     ("timestamp", Server.JVal.str "not-a-date")]
    "AA:BB:CC:DD:EE:FF" "not-a-date" (Server.JVal.num 101) 101
    (by decide) (by decide) (by decide) rfl (by decide) (by decide)
    (by decide)
  exact h.1

/-- Counterexample to C2: on a payload whose mac trims to empty and whose
    classroom does not coerce, the reported error is the coercion
    `ValueError`, not the empty-mac message the claim predicts. -/
theorem C2_counterexample :
    (Server.record_attendance Server.dbInit Server.pC2).1 =
      ⟨400, false,
        "Invalid data format: invalid literal for int() with base 10: 'abc'",
        none⟩ ∧
    (Server.record_attendance Server.dbInit Server.pC2).1.message ≠
      "Student MAC address cannot be empty" := by
  decide

/-- C2 (amended): the actual short-circuit order is: body present, all three
    fields present, classroom integer coercion (`int()` runs during
    extraction, so its `ValueError` is reported even when the mac is empty
    after trimming), then the empty-mac check, then positivity; the
    timestamp format is not part of handler validation. -/
theorem C2_validation_order (db : Server.DBState)
    (kvs : List (String × Server.JVal)) (mac : String)
    (hmac : Server.jlookup kvs "student_mac_address" = some (Server.JVal.str mac))
    (hempty : pyStrip mac = "") :
    (∀ (s : String) (tv : Server.JVal),
      Server.jlookup kvs "classroom_id" = some (Server.JVal.str s) →
      Server.parsePyInt s = none →
      Server.jlookup kvs "timestamp" = some tv →
      Server.record_attendance db (some kvs) =
        (⟨400, false,
          "Invalid data format: invalid literal for int() with base 10: '"
            ++ s ++ "'", none⟩, db)) ∧
    (∀ (c : Int) (b : Server.JVal) (ts : String),
      Server.jlookup kvs "classroom_id" = some b →
      Server.pyIntOf (some b) = Except.ok c →
      Server.jlookup kvs "timestamp" = some (Server.JVal.str ts) →
      Server.record_attendance db (some kvs) =
        (⟨400, false, "Student MAC address cannot be empty", none⟩, db)) := by
  constructor
  · intro s tv hb hbad htv
    rw [Server.record_attendance_fields db kvs hmac hb htv]
    unfold Server.validateAndInsert
    simp [Server.extractStripped, Server.pyIntOf, hbad, ← String.append_assoc]
  · intro c b ts hb hok hts
    rw [Server.record_attendance_fields db kvs hmac hb hts]
    unfold Server.validateAndInsert
    simp [Server.extractStripped, hok, hempty]

/-- Witness for C2: the coercion error wins over the empty mac; the empty-mac
    error wins over a negative classroom and a bad timestamp. -/
theorem C2_validation_order_witness :
    Server.record_attendance Server.dbInit Server.pC2 =
      (⟨400, false,
        "Invalid data format: invalid literal for int() with base 10: 'abc'",
        none⟩, Server.dbInit) ∧
    Server.record_attendance Server.dbInit
        (some [("student_mac_address", Server.JVal.str " "),
               ("classroom_id", Server.JVal.num (-7)),
               ("timestamp", Server.JVal.str "not-a-date")]) =
      (⟨400, false, "Student MAC address cannot be empty", none⟩,
        Server.dbInit) := by
  constructor
  · exact (C2_validation_order Server.dbInit
      [("student_mac_address", Server.JVal.str "   "),
       ("classroom_id", Server.JVal.str "abc"),
       ("timestamp", Server.JVal.str "2024-01-15 09:30:00")]
      "   " (by decide) (by decide)).1 "abc"
      (Server.JVal.str "2024-01-15 09:30:00") (by decide) (by decide) (by decide)
  · exact (C2_validation_order Server.dbInit
      [("student_mac_address", Server.JVal.str " "),
       ("classroom_id", Server.JVal.num (-7)),
       ("timestamp", Server.JVal.str "not-a-date")]
      " " (by decide) (by decide)).2 (-7) (Server.JVal.num (-7)) "not-a-date"
      (by decide) rfl (by decide)

/-- Counterexample to C4: the empty JSON object is a parseable object missing
    all three fields, yet it is reported as "No JSON data provided" (Python's
    falsiness test on the decoded dict), not with a message naming them. -/
theorem C4_counterexample :
    (Server.record_attendance Server.dbInit (some [])).1 =
      ⟨400, false, "No JSON data provided", none⟩ ∧
    (Server.record_attendance Server.dbInit (some [])).1.message ≠
      "Missing required fields: student_mac_address, classroom_id, timestamp" := by
  decide

/-- C4 (amended): for every NON-EMPTY JSON object payload missing one or more
    of the three required fields, the handler answers 400 with a message
    naming exactly the missing fields, and the state (hence the attendance
    record set) is unchanged. -/
theorem C4_missing_fields (db : Server.DBState)
    (kvs : List (String × Server.JVal)) (hne : kvs ≠ [])
    (hmiss : Server.requiredFields.filter
      (fun f => (Server.jlookup kvs f).isNone) ≠ []) :
    Server.record_attendance db (some kvs) =
      (⟨400, false,
        "Missing required fields: " ++ String.intercalate ", "
          (Server.requiredFields.filter
            (fun f => (Server.jlookup kvs f).isNone)),
        none⟩, db) := by
  have hnd : Server.notData (some kvs) = false := by
    cases kvs with
    | nil => exact absurd rfl hne
    | cons p ps => rfl
  have hm : (Server.requiredFields.filter
      (fun f => (Server.jlookup kvs f).isNone)).isEmpty = false := by
    cases hh : Server.requiredFields.filter
        (fun f => (Server.jlookup kvs f).isNone) with
    | nil => exact absurd hh hmiss
    | cons x xs => rfl
  unfold Server.record_attendance
  simp [hnd, hm]

/-- Witness for C4 at a concrete one-field payload. -/
theorem C4_missing_fields_witness :
    Server.record_attendance Server.dbInit
        (some [("student_mac_address", Server.JVal.str "AA:BB")]) =
      (⟨400, false, "Missing required fields: classroom_id, timestamp", none⟩,
        Server.dbInit) := by
  have h := C4_missing_fields Server.dbInit
    [("student_mac_address", Server.JVal.str "AA:BB")] (by decide) (by decide)
  exact h.trans (by decide)

/-- C5: an accepted payload whose (trimmed) timestamp is a rendering of a
    representable datetime is echoed verbatim, and reading it back through
    the recent-records endpoint renders the identical string: parse at
    insert followed by render at read is the identity on such strings. -/
theorem C5_timestamp_roundtrip (db : Server.DBState)
    (kvs : List (String × Server.JVal)) (mac ts : String) (b : Server.JVal)
    (c : Int) (dt : DateTime)
    (hdb : db.fail = Server.StoreFail.healthy) (hrec : db.records = [])
    (hmac : Server.jlookup kvs "student_mac_address" = some (Server.JVal.str mac))
    (hmne : pyStrip mac ≠ "")
    (hb : Server.jlookup kvs "classroom_id" = some b)
    (hcid : Server.pyIntOf (some b) = Except.ok c) (hcpos : 0 < c)
    (hts : Server.jlookup kvs "timestamp" = some (Server.JVal.str ts))
    (hvalid : dt.Valid) (hfmt : pyStrip ts = renderTimestamp dt) :
    (Server.record_attendance db (some kvs)).1.status = 200 ∧
    (Server.record_attendance db (some kvs)).1.echo =
      some (pyStrip mac, c, pyStrip ts) ∧
    ((Server.get_recent_attendance
        (Server.record_attendance db (some kvs)).2 (some 1)).1.data.map
      Server.RenderedRecord.entry_timestamp) = [pyStrip ts] := by
  rw [Server.record_attendance_fields db kvs hmac hb hts,
      Server.validateAndInsert_ok db mac ts b c hmne hcid hcpos, hfmt]
  have hpt : parseTimestamp (renderTimestamp dt) = some dt :=
    parseTimestamp_renderTimestamp hvalid
  have hi := Server.insert_healthy db (pyStrip mac) c (renderTimestamp dt) hdb hpt
  refine ⟨by simp [hi.1], by simp [hi.1], ?_⟩
  have hrecs : (Server.insert_attendance_record db (pyStrip mac) c
      (renderTimestamp dt)).2.records = [⟨db.nextId, pyStrip mac, c, dt⟩] := by
    rw [hi.2.1, hrec]
    rfl
  simp only [hi.1, if_true]
  rw [Server.get_recent_handler_single hi.2.2.2 hi.2.2.1 hrecs]
  simp [Server.renderRecord]

/-- Witness for C5 at the spec's example timestamp. -/
theorem C5_timestamp_roundtrip_witness :
    (Server.record_attendance Server.dbInit
      (some [("student_mac_address", Server.JVal.str "AA:BB:CC:DD:EE:FF"),
             ("classroom_id", Server.JVal.num 101),
             ("timestamp", Server.JVal.str "2024-01-15 09:30:00")])).1.echo =
      some ("AA:BB:CC:DD:EE:FF", 101, "2024-01-15 09:30:00") ∧
    ((Server.get_recent_attendance
        (Server.record_attendance Server.dbInit
          (some [("student_mac_address", Server.JVal.str "AA:BB:CC:DD:EE:FF"),
                 ("classroom_id", Server.JVal.num 101),
                 ("timestamp", Server.JVal.str "2024-01-15 09:30:00")])).2
        (some 1)).1.data.map Server.RenderedRecord.entry_timestamp) =
      ["2024-01-15 09:30:00"] := by
  have h := C5_timestamp_roundtrip Server.dbInit
    [("student_mac_address", Server.JVal.str "AA:BB:CC:DD:EE:FF"),
     ("classroom_id", Server.JVal.num 101),
     ("timestamp", Server.JVal.str "2024-01-15 09:30:00")]
    "AA:BB:CC:DD:EE:FF" "2024-01-15 09:30:00" (Server.JVal.num 101) 101
    ⟨2024, 1, 15, 9, 30, 0⟩
    rfl rfl (by decide) (by decide) (by decide) rfl (by decide) (by decide)
    (by decide) (by decide)
  exact ⟨h.2.1, h.2.2⟩

/-- C6: a requested limit of 200 behaves exactly like 100 (silent cap), and
    an absent limit behaves exactly like 10 (default), for every store
    state. -/
theorem C6_limit_clamp (db : Server.DBState) :
    Server.get_recent_attendance db (some 200) =
      Server.get_recent_attendance db (some 100) ∧
    Server.get_recent_attendance db none =
      Server.get_recent_attendance db (some 10) :=
  ⟨rfl, rfl⟩

/-- C7: a classroom id coercing to zero or a negative integer is rejected
    with the 400 positivity error and no state change; classroom id 1 on a
    healthy store is accepted with success. -/
theorem C7_classroom_bounds (db : Server.DBState)
    (kvs : List (String × Server.JVal)) (mac ts : String) (c : Int)
    (dt : DateTime)
    (hmac : Server.jlookup kvs "student_mac_address" = some (Server.JVal.str mac))
    (hmne : pyStrip mac ≠ "")
    (hts : Server.jlookup kvs "timestamp" = some (Server.JVal.str ts))
    (hpt : parseTimestamp (pyStrip ts) = some dt) :
    (∀ b : Server.JVal, Server.jlookup kvs "classroom_id" = some b →
      Server.pyIntOf (some b) = Except.ok c → c ≤ 0 →
      Server.record_attendance db (some kvs) =
        (⟨400, false, "Classroom ID must be a positive integer", none⟩, db)) ∧
    (Server.jlookup kvs "classroom_id" = some (Server.JVal.num 1) →
      db.fail = Server.StoreFail.healthy →
      (Server.record_attendance db (some kvs)).1.status = 200 ∧
      (Server.record_attendance db (some kvs)).1.success = true) := by
  constructor
  · intro b hb hok hle
    rw [Server.record_attendance_fields db kvs hmac hb hts]
    unfold Server.validateAndInsert
    simp [Server.extractStripped, hok, hmne, hle]
  · intro hb hdb
    rw [Server.record_attendance_fields db kvs hmac hb hts,
        Server.validateAndInsert_ok db mac ts (Server.JVal.num 1) 1 hmne rfl
          (by omega)]
    have hi := Server.insert_healthy db (pyStrip mac) 1 (pyStrip ts) hdb hpt
    constructor
    · simp [hi.1]
    · simp [hi.1]

/-- Witness for C7: classroom id -3 is rejected, classroom id 1 accepted. -/
theorem C7_classroom_bounds_witness :
    Server.record_attendance Server.dbInit
        (some [("student_mac_address", Server.JVal.str "AA:BB"),
               ("classroom_id", Server.JVal.num (-3)),
               ("timestamp", Server.JVal.str "2024-01-15 09:30:00")]) =
      (⟨400, false, "Classroom ID must be a positive integer", none⟩,
        Server.dbInit) ∧
    (Server.record_attendance Server.dbInit
        (some [("student_mac_address", Server.JVal.str "AA:BB"),
               ("classroom_id", Server.JVal.num 1),
               ("timestamp", Server.JVal.str "2024-01-15 09:30:00")])).1.status
      = 200 := by
  constructor
  · exact (C7_classroom_bounds Server.dbInit
      [("student_mac_address", Server.JVal.str "AA:BB"),
       ("classroom_id", Server.JVal.num (-3)),
       ("timestamp", Server.JVal.str "2024-01-15 09:30:00")]
      "AA:BB" "2024-01-15 09:30:00" (-3) ⟨2024, 1, 15, 9, 30, 0⟩
      (by decide) (by decide) (by decide) (by decide)).1
      (Server.JVal.num (-3)) (by decide) rfl (by decide)
  · exact ((C7_classroom_bounds Server.dbInit
      [("student_mac_address", Server.JVal.str "AA:BB"),
       ("classroom_id", Server.JVal.num 1),
       ("timestamp", Server.JVal.str "2024-01-15 09:30:00")]
      "AA:BB" "2024-01-15 09:30:00" 1 ⟨2024, 1, 15, 9, 30, 0⟩
      (by decide) (by decide) (by decide) (by decide)).2
      (by decide) (by decide)).1

/-- C9: when the store read fails (connection refused or query error), the
    recent-records endpoint answers 200 with an empty record list, exactly
    as it does over a healthy empty store; the failure is never surfaced as
    a server error. -/
theorem C9_read_failure_hidden (db : Server.DBState) (limitArg : Option Int)
    (h : db.fail ≠ Server.StoreFail.healthy) :
    (Server.get_recent_attendance db limitArg).1 =
      (Server.get_recent_attendance Server.emptyStore limitArg).1 ∧
    (Server.get_recent_attendance db limitArg).1.status = 200 ∧
    (Server.get_recent_attendance db limitArg).1.success = true ∧
    (Server.get_recent_attendance db limitArg).1.data = [] := by
  have h1 := Server.get_recent_db_failing db
    (if (limitArg.getD 10) > 100 then 100 else limitArg.getD 10) h
  have h2 := Server.get_recent_db_empty
    (if (limitArg.getD 10) > 100 then 100 else limitArg.getD 10)
  unfold Server.get_recent_attendance
  simp [h1, h2]

/-- Witness for C9 with an unreachable store and with failing queries. -/
theorem C9_read_failure_hidden_witness :
    (Server.get_recent_attendance Server.dbDown none).1.status = 200 ∧
    (Server.get_recent_attendance Server.dbDown none).1.data = [] ∧
    (Server.get_recent_attendance Server.dbQueryErr (some 5)).1.status = 200 := by
  have ha := C9_read_failure_hidden Server.dbDown none (by decide)
  have hb := C9_read_failure_hidden Server.dbQueryErr (some 5) (by decide)
  exact ⟨ha.2.1, ha.2.2.2, hb.2.1⟩

/-- Counterexample to C10: when the mac is a string, the classroom id is a
    non-coercible string and the timestamp a number, `int()` raises
    `ValueError` before `.strip()` runs on the timestamp, so the response is
    400, not the 500 the claim predicts. -/
theorem C10_counterexample :
    (Server.record_attendance Server.dbInit Server.pC10).1.status = 400 ∧
    (Server.record_attendance Server.dbInit Server.pC10).1.message =
      "Invalid data format: invalid literal for int() with base 10: 'abc'" := by
  decide

/-- C10 (amended): with all three fields present, a non-string mac — or a
    string mac with an int-coercible classroom and a non-string timestamp —
    makes `.strip()` raise `AttributeError`, which only the generic handler
    catches: the response is the 500 "Internal server error", not a 400. -/
theorem C10_nonstring_field_500 (db : Server.DBState)
    (kvs : List (String × Server.JVal)) :
    (∀ v : Server.JVal, Server.jlookup kvs "student_mac_address" = some v →
      v.isStr = false →
      (Server.jlookup kvs "classroom_id").isSome = true →
      (Server.jlookup kvs "timestamp").isSome = true →
      Server.record_attendance db (some kvs) =
        (⟨500, false, "Internal server error", none⟩, db)) ∧
    (∀ (mac : String) (b v : Server.JVal) (c : Int),
      Server.jlookup kvs "student_mac_address" = some (Server.JVal.str mac) →
      Server.jlookup kvs "classroom_id" = some b →
      Server.pyIntOf (some b) = Except.ok c →
      Server.jlookup kvs "timestamp" = some v →
      v.isStr = false →
      Server.record_attendance db (some kvs) =
        (⟨500, false, "Internal server error", none⟩, db)) := by
  constructor
  · intro v hv hnotstr hcs hts
    obtain ⟨b, hb⟩ := Option.isSome_iff_exists.mp hcs
    obtain ⟨tv, htv⟩ := Option.isSome_iff_exists.mp hts
    rw [Server.record_attendance_fields db kvs hv hb htv]
    unfold Server.validateAndInsert
    rw [Server.extractStripped_nonstr hnotstr]
  · intro mac b v c hmac hb hok htv hnotstr
    rw [Server.record_attendance_fields db kvs hmac hb htv]
    unfold Server.validateAndInsert
    rw [Server.extractStripped_nonstr hnotstr]
    simp [Server.extractStripped, hok]

/-- Witness for C10: a numeric mac gives 500; a numeric timestamp behind a
    coercible classroom gives 500. -/
theorem C10_nonstring_field_500_witness :
    Server.record_attendance Server.dbInit
        (some [("student_mac_address", Server.JVal.num 3),
               ("classroom_id", Server.JVal.num 1),
               ("timestamp", Server.JVal.str "x")]) =
      (⟨500, false, "Internal server error", none⟩, Server.dbInit) ∧
    Server.record_attendance Server.dbInit
        (some [("student_mac_address", Server.JVal.str "AA:BB"),
               ("classroom_id", Server.JVal.num 1),
               ("timestamp", Server.JVal.num 5)]) =
      (⟨500, false, "Internal server error", none⟩, Server.dbInit) := by
  constructor
  · exact (C10_nonstring_field_500 Server.dbInit
      [("student_mac_address", Server.JVal.num 3),
       ("classroom_id", Server.JVal.num 1),
       ("timestamp", Server.JVal.str "x")]).1
      (Server.JVal.num 3) (by decide) (by decide) (by decide) (by decide)
  · exact (C10_nonstring_field_500 Server.dbInit
      [("student_mac_address", Server.JVal.str "AA:BB"),
       ("classroom_id", Server.JVal.num 1),
       ("timestamp", Server.JVal.num 5)]).2
      "AA:BB" (Server.JVal.num 1) (Server.JVal.num 5) 1
      (by decide) (by decide) rfl (by decide) (by decide)

end AttendanceSystem
